import Mathlib

/-!
Verification of the authentication subsystem of the profile-website backend
(src/auth.py, src/main.py, src/models.py).

The repository's own code (`hash_password`, `verify_password`, `create_token`,
`decode_token`, `update_profile`, the `User` model) is embedded directly from
the source.  The third-party libraries it calls — passlib's `CryptContext`
with the pbkdf2_sha256 scheme, and python-jose's `jwt.encode` / `jwt.decode` —
are not part of the repository; their behaviour is modelled from the spec,
with each modelled definition marked `Modelled from the spec:`.

Time (python `datetime.utcnow()`) is made explicit as a natural number of
seconds passed to the operations; the per-call random salt drawn by passlib
is made explicit as a natural-number parameter of `hash_password`; python
exceptions are modelled with `Except` / `Option`.
-/

namespace ProfileSite

/-! ## Credential Hasher (passlib CryptContext, scheme pbkdf2_sha256) -/

/-- Modelled from the spec: the pbkdf2-sha256 digest of passlib, an abstract
one-way transform "recomputed using the salt" at verification time.  The
library's key-derivation function is not in the repository; it is abstracted
as an injective pairing of salt and plaintext. -/
def digestFn (password : String) (salt : Nat) : String :=
  toString salt ++ ":" ++ password

/-- Modelled from the spec: a well-formed stored credential, which
"self-describes its scheme/parameters" — the scheme label, the embedded
per-call salt, and the derived digest. -/
structure Credential where
  scheme : String
  salt : Nat
  digest : String
deriving DecidableEq, Repr

/-- A stored credential string as seen by `verify`: either a well-formed
credential or an arbitrary malformed string. -/
inductive CredentialWire where
  | malformed (s : String)
  | wellFormed (c : Credential)
deriving DecidableEq, Repr

/-- Modelled from the spec: `pwd_context.hash` — derives a credential from the
plaintext and a per-call random salt (the salt is the explicit model of the
library's randomness), embedding scheme, salt and digest in the output. -/
def cryptContextHash (password : String) (salt : Nat) : Credential :=
  { scheme := "pbkdf2_sha256", salt := salt, digest := digestFn password salt }

/-- Modelled from the spec: `pwd_context.verify` — "recomputes using the salt
embedded in the credential and compares; returns false on any mismatch,
including malformed credential strings". -/
def cryptContextVerify (password : String) (stored : CredentialWire) : Bool :=
  match stored with
  | .malformed _ => false
  | .wellFormed c =>
      decide (c.scheme = "pbkdf2_sha256") && decide (c.digest = digestFn password c.salt)

/-- src/auth.py, `hash_password`: returns `pwd_context.hash(password)`.
The library's random salt is the explicit second argument. -/
def hash_password (password : String) (salt : Nat) : CredentialWire :=
  .wellFormed (cryptContextHash password salt)

/-- src/auth.py, `verify_password`: returns `pwd_context.verify(password, hashed)`. -/
def verify_password (password : String) (hashed : CredentialWire) : Bool :=
  cryptContextVerify password hashed

/-! ## Session Token Issuer/Validator (python-jose JWT, HS256) -/

/-- src/auth.py, module constant `SECRET_KEY`. -/
def SECRET_KEY : String := "CHANGE_THIS_SECRET_KEY"

/-- src/auth.py, module constant `ALGORITHM`. -/
def ALGORITHM : String := "HS256"

/-- A JWT claim set as used by this program: subject identity and expiration
instant (seconds), each possibly absent. -/
structure Claims where
  sub : Option String
  exp : Option Nat
deriving DecidableEq, Repr

/-- A signed token: the claim set together with the key and algorithm it was
signed under.  Recording the signing key and algorithm models an ideal,
unforgeable signature: a token's signature is valid for key `k` and algorithm
`a` exactly when the token was encoded with `k` and `a`. -/
structure SignedToken where
  payload : Claims
  key : String
  alg : String
deriving DecidableEq, Repr

/-- A token string as presented to the validator: either a well-formed signed
token or an arbitrary malformed string (empty, garbage, a None-equivalent). -/
inductive TokenWire where
  | malformed (s : String)
  | signed (t : SignedToken)
deriving DecidableEq, Repr

/-- Modelled from the spec: `jose.jwt.encode(payload, key, algorithm)` —
"produces a signed token binding" the claim set, under the given key and
algorithm. -/
def jwtEncode (payload : Claims) (key : String) (alg : String) : SignedToken :=
  { payload := payload, key := key, alg := alg }

/-- Modelled from the spec: `jose.jwt.decode(token, key, algorithms)` at
current time `now` — raises `JWTError` (here `Except.error`) when the token
string is malformed, when the signature is not valid under `key`, when the
token's algorithm is not among the allowed `algs`, when the claim set lacks
the expiration instant the spec requires of every token, or when the
expiration instant is at or before the current time; otherwise returns the
claim set. -/
def jwtDecode (w : TokenWire) (key : String) (algs : List String) (now : Nat) :
    Except Unit Claims :=
  match w with
  | .malformed _ => .error ()
  | .signed t =>
      if t.key = key ∧ t.alg ∈ algs then
        match t.payload.exp with
        | none => .error ()
        | some e => if e ≤ now then .error () else .ok t.payload
      else .error ()

/-- src/auth.py, `create_token`: signs the payload
`{"sub": username, "exp": utcnow() + timedelta(hours=2)}` with `SECRET_KEY`
and `ALGORITHM`.  `now` is the explicit model of `datetime.utcnow()`,
in seconds. -/
def create_token (username : String) (now : Nat) : SignedToken :=
  jwtEncode { sub := some username, exp := some (now + 2 * 60 * 60) }
    SECRET_KEY ALGORITHM

/-- src/auth.py, `decode_token`: `jwt.decode(token, SECRET_KEY, [ALGORITHM])`,
returning `payload.get("sub")` on success and `None` on any `JWTError`. -/
def decode_token (token : TokenWire) (now : Nat) : Option String :=
  match jwtDecode token SECRET_KEY [ALGORITHM] now with
  | .ok payload => payload.sub
  | .error _ => none

/-! ## User model and profile update (src/models.py, src/main.py) -/

/-- src/models.py, the `users` table row. -/
structure User where
  id : Nat
  username : String
  hashed_password : String
  phone : String
  bio : String
  photo : String
  resume : String
deriving DecidableEq, Repr

/-- src/main.py, the `ProfileUpdate` request schema. -/
structure ProfileUpdate where
  phone : String := ""
  bio : String := ""
deriving DecidableEq, Repr

/-- src/main.py, `update_profile` (PUT /api/me): sets `current_user.phone`
and `current_user.bio` from the payload and commits; the committed row is the
returned record. -/
def update_profile (data : ProfileUpdate) (current_user : User) : User :=
  { current_user with phone := data.phone, bio := data.bio }

/-! ## Theorems -/

/-- C1: for every identity `u`, decoding a freshly issued token round-trips:
`decode_token (create_token u)` returns `u` when evaluated at the issuance
instant, under the process-wide secret and algorithm. -/
theorem decode_create_round_trip (u : String) (now : Nat) :
    decode_token (.signed (create_token u now)) now = some u := by
  simp [decode_token, jwtDecode, create_token, jwtEncode]

/-- C2: for every plaintext password `p` (and any salt the library draws),
`verify_password p (hash_password p)` returns true. -/
theorem verify_hash_round_trip (p : String) (salt : Nat) :
    verify_password p (hash_password p salt) = true := by
  simp [verify_password, hash_password, cryptContextVerify, cryptContextHash]

/-- C3: validator soundness — whenever `decode_token` returns an identity,
the presented token is a well-formed signed token that was encoded (via
`jwtEncode`, the ideal signature) under the process-wide `SECRET_KEY` and
`ALGORITHM`, its subject claim is that identity, and its embedded expiration
instant has not yet passed at validation time. -/
theorem decode_token_sound (w : TokenWire) (now : Nat) (u : String)
    (h : decode_token w now = some u) :
    ∃ t : SignedToken, w = .signed t ∧
      t = jwtEncode t.payload SECRET_KEY ALGORITHM ∧
      t.payload.sub = some u ∧
      ∃ e : Nat, t.payload.exp = some e ∧ now < e := by
  cases w with
  | malformed s => simp [decode_token, jwtDecode] at h
  | signed t =>
      refine ⟨t, rfl, ?_⟩
      simp only [decode_token, jwtDecode] at h
      by_cases hka : t.key = SECRET_KEY ∧ t.alg ∈ [ALGORITHM]
      · rw [if_pos hka] at h
        obtain ⟨hk, ha⟩ := hka
        rcases hexp : t.payload.exp with _ | e
        · rw [hexp] at h; simp at h
        · rw [hexp] at h
          by_cases hle : e ≤ now
          · simp [hle] at h
          · simp [hle] at h
            refine ⟨?_, h, e, rfl, Nat.lt_of_not_le hle⟩
            have ha' : t.alg = ALGORITHM := by simpa using ha
            cases t with
            | mk payload key alg => simp_all [jwtEncode]
      · rw [if_neg hka] at h; simp at h

/-- C3 witness: a freshly issued token for "alice" is accepted at time 0,
hence the soundness theorem applies to it. -/
theorem decode_token_sound_witness :
    ∃ t : SignedToken, TokenWire.signed (create_token "alice" 0) = .signed t ∧
      t = jwtEncode t.payload SECRET_KEY ALGORITHM ∧
      t.payload.sub = some "alice" ∧
      ∃ e : Nat, t.payload.exp = some e ∧ 0 < e :=
  decode_token_sound (.signed (create_token "alice" 0)) 0 "alice" (by decide)

/-- C4: a signed token whose embedded expiration instant is at or before the
current time is rejected by `decode_token`, even when its signature is valid
under the process-wide secret and algorithm. -/
theorem decode_token_rejects_expired (t : SignedToken) (now e : Nat)
    (hexp : t.payload.exp = some e) (hle : e ≤ now) :
    decode_token (.signed t) now = none := by
  simp only [decode_token, jwtDecode]
  by_cases hka : t.key = SECRET_KEY ∧ t.alg ∈ [ALGORITHM]
  · rw [if_pos hka, hexp]
    simp [hle]
  · rw [if_neg hka]

/-- C4 witness: a token for "alice" issued at time 0 expires at 7200 and is
rejected at time 7200, although it is signed with the correct secret and
algorithm. -/
theorem decode_token_rejects_expired_witness :
    decode_token (.signed (create_token "alice" 0)) 7200 = none :=
  decode_token_rejects_expired (create_token "alice" 0) 7200 7200 rfl
    (by decide)

/-- C5: a token signed with a secret different from the process-wide
`SECRET_KEY`, or with an algorithm other than the configured `ALGORITHM`, is
rejected by `decode_token`. -/
theorem decode_token_rejects_wrong_key_or_alg (t : SignedToken) (now : Nat)
    (h : t.key ≠ SECRET_KEY ∨ t.alg ≠ ALGORITHM) :
    decode_token (.signed t) now = none := by
  simp only [decode_token, jwtDecode]
  have hka : ¬ (t.key = SECRET_KEY ∧ t.alg ∈ [ALGORITHM]) := by
    rcases h with h | h <;> simp_all
  rw [if_neg hka]

/-- C5 witness: a token for "alice" signed with the secret "attacker-key" is
rejected at time 0. -/
theorem decode_token_rejects_wrong_key_witness :
    decode_token
      (.signed (jwtEncode { sub := some "alice", exp := some 7200 }
        "attacker-key" ALGORITHM)) 0 = none :=
  decode_token_rejects_wrong_key_or_alg
    (jwtEncode { sub := some "alice", exp := some 7200 } "attacker-key"
      ALGORITHM) 0 (Or.inl (by decide))

/-- C6: `decode_token` is total and fails closed: every malformed token
string (the empty string, an arbitrary non-token string, a None-equivalent)
is rejected, and so is a signed payload missing the subject claim; being a
total Lean function into `Option`, it never raises. -/
theorem decode_token_fails_closed (s : String) (t : SignedToken) (now : Nat)
    (hsub : t.payload.sub = none) :
    decode_token (.malformed s) now = none ∧
    decode_token (.signed t) now = none := by
  constructor
  · rfl
  · simp only [decode_token, jwtDecode]
    by_cases hka : t.key = SECRET_KEY ∧ t.alg ∈ [ALGORITHM]
    · rw [if_pos hka]
      rcases hexp : t.payload.exp with _ | e
      · rfl
      · by_cases hle : e ≤ now
        · simp [hle]
        · simp [hle, hsub]
    · rw [if_neg hka]

/-- C6 witness: the malformed string "not-a-token" is rejected, and so is a
correctly signed unexpired payload whose subject claim is absent. -/
theorem decode_token_fails_closed_witness :
    decode_token (.malformed "not-a-token") 0 = none ∧
    decode_token
      (.signed (jwtEncode { sub := none, exp := some 7200 }
        SECRET_KEY ALGORITHM)) 0 = none :=
  decode_token_fails_closed "not-a-token"
    (jwtEncode { sub := none, exp := some 7200 } SECRET_KEY ALGORITHM) 0 rfl

/-- C7: `verify_password` is a total boolean function that fails closed: it
returns false on every malformed credential string, and false on any
mismatch — a well-formed credential whose digest is not the recomputation
from the plaintext and the embedded salt. -/
theorem verify_password_fails_closed (p s : String) (c : Credential)
    (hc : c.digest ≠ digestFn p c.salt) :
    verify_password p (.malformed s) = false ∧
    verify_password p (.wellFormed c) = false := by
  constructor
  · rfl
  · simp [verify_password, cryptContextVerify, hc]

/-- C7 witness: verification of "secret123" against the malformed credential
"not-a-hash" returns false, and against a well-formed credential holding a
digest of a different password it also returns false. -/
theorem verify_password_fails_closed_witness :
    verify_password "secret123" (.malformed "not-a-hash") = false ∧
    verify_password "secret123"
      (.wellFormed (cryptContextHash "wrongpass" 0)) = false :=
  verify_password_fails_closed "secret123" "not-a-hash"
    (cryptContextHash "wrongpass" 0) (by decide)

/-- C8: the token produced by `create_token u` carries an absolute
expiration instant equal to the issuance time plus exactly 2 hours
(7200 seconds). -/
theorem create_token_expiry (u : String) (now : Nat) :
    (create_token u now).payload.exp = some (now + 2 * 60 * 60) := rfl

/-- C9: two calls of `hash_password` on the same plaintext with distinct
random salts produce two different credential strings, and both outputs
verify against the plaintext. -/
theorem hash_password_salted (p : String) (s1 s2 : Nat) (h : s1 ≠ s2) :
    hash_password p s1 ≠ hash_password p s2 ∧
    verify_password p (hash_password p s1) = true ∧
    verify_password p (hash_password p s2) = true := by
  refine ⟨?_, ?_, ?_⟩
  · intro hEq
    apply h
    have hc : cryptContextHash p s1 = cryptContextHash p s2 := by
      simpa [hash_password] using hEq
    simpa [cryptContextHash] using congrArg Credential.salt hc
  · simp [verify_password, hash_password, cryptContextVerify, cryptContextHash]
  · simp [verify_password, hash_password, cryptContextVerify, cryptContextHash]

/-- C9 witness: hashing "secret123" with salts 0 and 1 yields two distinct
credentials, both verifying against "secret123". -/
theorem hash_password_salted_witness :
    hash_password "secret123" 0 ≠ hash_password "secret123" 1 ∧
    verify_password "secret123" (hash_password "secret123" 0) = true ∧
    verify_password "secret123" (hash_password "secret123" 1) = true :=
  hash_password_salted "secret123" 0 1 (by decide)

/-- C10: frame property of `update_profile` — for every user record and
every `ProfileUpdate` payload, only the `phone` and `bio` fields change (to
the payload's values); `id`, `username`, `hashed_password`, `photo` and
`resume` are unchanged. -/
theorem update_profile_frame (d : ProfileUpdate) (u : User) :
    (update_profile d u).id = u.id ∧
    (update_profile d u).username = u.username ∧
    (update_profile d u).hashed_password = u.hashed_password ∧
    (update_profile d u).photo = u.photo ∧
    (update_profile d u).resume = u.resume ∧
    (update_profile d u).phone = d.phone ∧
    (update_profile d u).bio = d.bio :=
  ⟨rfl, rfl, rfl, rfl, rfl, rfl, rfl⟩

end ProfileSite
